import Mathlib

/-!
Verification of the binary-resolution logic of the
`design-tokens-language-server` Zed extension.

The repository holds two revisions of the extension:

* `src/extensions/zed/src/dtls.rs` — resolver with search-path lookup,
  process cache, GitHub-release download, platform/arch asset naming and
  stale-version cleanup (`DesignTokensExtension::language_server_binary`).
* `src/extensions/zed/src/lib.rs` — resolver deriving a per-user state
  path from `HOME` / `XDG_STATE_HOME` and a project-local copy step
  (`DesignTokensLanguageserverExtension::language_server_binary_path`,
  `get_local_bin_path`, `copy_bin`).

Both are shallowly embedded below.  External effects (filesystem probes,
the release feed, downloads, chmod, directory listing, copies) are
modelled as fields of an explicit world value that the resolver reads;
effects the resolver performs are recorded in an effect record so that
"no download happened" style properties can be stated.  Rust panics
(`panic!`, `todo!`, `unreachable!`) are modelled as a distinct outcome
constructor, separate from `Err` returns.
-/

namespace DTLS

/-- Outcome of one resolution call: `Ok(path)`, `Err(msg)`, or a Rust
panic with its message. -/
inductive ROutcome where
  | ok : String → ROutcome
  | err : String → ROutcome
  | panicked : String → ROutcome
deriving DecidableEq, Repr

/-- Embedding of `zed::Os` (the host API's operating-system enum). -/
inductive Os where
  | mac
  | linux
  | windows
deriving DecidableEq, Repr

/-- Embedding of `zed::Architecture` (the host API's CPU-architecture enum). -/
inductive Architecture where
  | aarch64
  | x8664
  | x86
deriving DecidableEq, Repr

/-- Embedding of `zed::GithubReleaseAsset`: a release asset with name and URL. -/
structure Asset where
  name : String
  download_url : String
deriving DecidableEq, Repr

/-- Embedding of `zed::GithubRelease`: version string plus asset list. -/
structure Release where
  version : String
  assets : List Asset
deriving DecidableEq, Repr

end DTLS

namespace Dtls

open DTLS

/-- Embedding of the `asset_name` computation of
`DesignTokensExtension::language_server_binary` (dtls.rs lines 46-70).
Windows uses the simplified `win-{arch}.exe` naming; Mac and Linux use
target triples.  The `Architecture::X86` arms are `todo!()` in the
source, i.e. they panic instead of producing a filename; that failure is
modelled as `none`.  The `unreachable!()` arm for Windows inside the
Unix branch is likewise `none` (it cannot be reached because the outer
match sends Windows to the first branch). -/
def assetName (platform : Os) (arch : Architecture) : Option String :=
  match platform with
  | .windows =>
    match arch with
    | .aarch64 => some "design-tokens-language-server-win-arm64.exe"
    | .x8664 => some "design-tokens-language-server-win-x64.exe"
    | .x86 => none
  | _ =>
    match arch with
    | .x86 => none
    | _ =>
      let archName := match arch with
        | .aarch64 => "aarch64"
        | .x8664 => "x86_64"
        | .x86 => ""
      match platform with
      | .mac => some ("design-tokens-language-server-" ++ archName ++ "-apple-darwin")
      | .linux => some ("design-tokens-language-server-" ++ archName ++ "-unknown-linux-gnu")
      | .windows => none

/-- The world a `language_server_binary` call observes: results of every
external operation the function may perform, fixed up front.  `isFile`
is the pre-state of the filesystem as seen by `fs::metadata(..).is_file()`;
`readDirResult` is the listing of the working directory after the
download (outer `Except` = `fs::read_dir` failure, inner `Except` per
entry = `entry?` failure); `removeOk` says which best-effort
`fs::remove_dir_all` calls would succeed. -/
structure World where
  whichResult : Option String
  platform : Os
  arch : Architecture
  releaseResult : Except String Release
  isFile : String → Bool
  mkdirOk : Bool
  mkdirErr : String
  downloadOk : Bool
  downloadErr : String
  chmodOk : Bool
  chmodErr : String
  readDirResult : Except String (List (Except String String))
  removeOk : String → Bool

/-- Effects a call performed: status callbacks to the host, the release
feed query (the only network read besides the download itself), the
download, the chmod, directory creation, and the directories actually
removed by the cleanup loop. -/
structure Effects where
  statusCheckingForUpdate : Bool := false
  fetchedRelease : Bool := false
  statusDownloading : Bool := false
  createdDir : Option String := none
  downloadedFrom : Option String := none
  madeExecutable : Bool := false
  removedDirs : List String := []
deriving DecidableEq, Repr

/-- Result of a call: outcome, the new `cached_binary_path` field, and
the effects performed. -/
structure RunResult where
  outcome : ROutcome
  cache : Option String
  effects : Effects
deriving DecidableEq, Repr

/-- The cleanup loop of dtls.rs lines 101-106: walk the entries of the
working directory in order; a failing entry aborts the loop with
`Err("failed to load directory entry ...")`; for every readable entry
whose name differs from the version directory, `fs::remove_dir_all` is
attempted and its error ignored (`.ok()`).  Returns the names actually
removed, and the entry error if one occurred. -/
def cleanupLoop (versionDir : String) (removeOk : String → Bool) :
    List (Except String String) → List String × Option String
  | [] => ([], none)
  | .error e :: _ => ([], some ("failed to load directory entry " ++ e))
  | .ok name :: rest =>
    let here := if name ≠ versionDir ∧ removeOk name then [name] else []
    let tail := cleanupLoop versionDir removeOk rest
    (here ++ tail.1, tail.2)

/-- The remote-acquisition tail of `language_server_binary` (dtls.rs
lines 26-107): status callback, release query, asset-name computation,
asset search, version directory creation, conditional download + chmod +
stale-directory cleanup.  The caller installs the cache on success. -/
def acquire (w : World) : ROutcome × Effects :=
  let e0 : Effects := { statusCheckingForUpdate := true, fetchedRelease := true }
  match w.releaseResult with
  | .error e => (.err e, e0)
  | .ok release =>
    match assetName w.platform w.arch with
    | none => (.panicked "not yet implemented", e0)
    | some asset_name =>
      match release.assets.find? (fun a => a.name == asset_name) with
      | none => (.err ("no asset found matching \"" ++ asset_name ++ "\""), e0)
      | some asset =>
        let version_dir := "design-tokens-language-server-" ++ release.version
        if w.mkdirOk = false then
          (.err ("failed to create directory '" ++ version_dir ++ "': " ++ w.mkdirErr), e0)
        else
          let e1 := { e0 with createdDir := some version_dir }
          let binary_path := version_dir ++ "/" ++ asset_name
          if w.isFile binary_path then
            (.ok binary_path, e1)
          else
            let e2 := { e1 with statusDownloading := true }
            if w.downloadOk = false then
              (.err ("failed to download file: " ++ w.downloadErr), e2)
            else
              let e3 := { e2 with downloadedFrom := some asset.download_url }
              if w.chmodOk = false then
                (.err w.chmodErr, e3)
              else
                let e4 := { e3 with madeExecutable := true }
                match w.readDirResult with
                | .error e =>
                  (.err ("failed to list working directory " ++ e), e4)
                | .ok entries =>
                  let swept := cleanupLoop version_dir w.removeOk entries
                  let e5 := { e4 with removedDirs := swept.1 }
                  match swept.2 with
                  | some e => (.err e, e5)
                  | none => (.ok binary_path, e5)

/-- The cache check of dtls.rs lines 20-24: the cached path is returned
only when it is set and still an existing regular file. -/
def cacheHit (w : World) (cache : Option String) : Option String :=
  match cache with
  | some path => if w.isFile path then some path else none
  | none => none

/-- Embedding of `DesignTokensExtension::language_server_binary`
(dtls.rs lines 11-111): search-path lookup first, then the cache check,
then remote acquisition; `cached_binary_path` is assigned only on line
109, i.e. only when acquisition succeeds. -/
def languageServerBinary (w : World) (cache : Option String) : RunResult :=
  match w.whichResult with
  | some path => { outcome := .ok path, cache := cache, effects := {} }
  | none =>
    match cacheHit w cache with
    | some path => { outcome := .ok path, cache := cache, effects := {} }
    | none =>
      let r := acquire w
      { outcome := r.1
        cache := match r.1 with
          | .ok p => some p
          | _ => cache
        effects := r.2 }

end Dtls

namespace Lib

open DTLS

/-- Outcome of a call that cannot fail with `Err` but can panic:
either the returned value or a panic message.  Used for
`get_local_bin_path`, which panics when `HOME` is unset. -/
inductive POutcome (α : Type) where
  | ok : α → POutcome α
  | panicked : String → POutcome α
deriving DecidableEq, Repr

/-- The world a `language_server_binary_path` call observes.
`shellEnv` is `worktree.shell_env()` (an association list collected into
a `HashMap`, so a later binding for a key shadows an earlier one);
`rootPath` is `worktree.root_path()`; `copySucceeds from to` is whether
`fs::copy(from, to)` succeeds and `copyErr from to` its error message
otherwise; `isFile` is `fs::metadata(..).is_file()`. -/
structure World where
  shellEnv : List (String × String)
  rootPath : String
  isFile : String → Bool
  copySucceeds : String → String → Bool
  copyErr : String → String → String

/-- Lookup modelling the `HashMap` collected over the collected shell environment: collecting an
iterator into a `HashMap` keeps the last binding for each key, so the
lookup finds the value of the last pair with the given key. -/
def envGet (env : List (String × String)) (key : String) : Option String :=
  (env.reverse.find? (fun p => p.1 == key)).map (fun p => p.2)

/-- Embedding of
`DesignTokensLanguageserverExtension::get_local_bin_path` (lib.rs lines
38-65): read `HOME` from the shell environment, panicking with
"No HOME env var" when absent; take `XDG_STATE_HOME` or fall back to
`$HOME/.local`; return `<state_home>/bin/design-tokens-language-server`.
Path joins are modelled as string concatenation with "/". -/
def getLocalBinPath (env : List (String × String)) : POutcome String :=
  match envGet env "HOME" with
  | none => .panicked "No HOME env var"
  | some home =>
    let stateHome := match envGet env "XDG_STATE_HOME" with
      | some h => h
      | none => home ++ "/.local"
    .ok (stateHome ++ "/bin/design-tokens-language-server")

/-- Result of a `copy_bin` call: its outcome and, when the `fs::copy`
call was reached, the `(source, destination)` pair it was given. -/
structure CopyResult where
  outcome : ROutcome
  copied : Option (String × String)
deriving DecidableEq, Repr

/-- Embedding of `DesignTokensLanguageserverExtension::copy_bin` (lib.rs
lines 67-81).  `binary_path` is
`<worktree-root>/node_modules/.bin/design-tokens-language-server`;
`local_bin_path` is the state-directory path from `get_local_bin_path`
(whose panic propagates).  The source calls
`fs::copy(&local_bin_path, binary_path)`, i.e. it copies FROM the
state-directory path TO the project's `node_modules/.bin` path, and on
success returns `binary_path` — the `node_modules` destination. -/
def copyBin (w : World) : CopyResult :=
  let binary_path := w.rootPath ++ "/node_modules/.bin/design-tokens-language-server"
  match getLocalBinPath w.shellEnv with
  | .panicked m => { outcome := .panicked m, copied := none }
  | .ok local_bin_path =>
    if w.copySucceeds local_bin_path binary_path then
      { outcome := .ok binary_path, copied := some (local_bin_path, binary_path) }
    else
      { outcome := .err (w.copyErr local_bin_path binary_path)
        copied := some (local_bin_path, binary_path) }

/-- Result of a `language_server_binary_path` call: outcome, new
`cached_binary_path`, and the copy effect if one was attempted. -/
structure RunResult where
  outcome : ROutcome
  cache : Option String
  copied : Option (String × String)
deriving DecidableEq, Repr

/-- Embedding of
`DesignTokensLanguageserverExtension::language_server_binary_path`
(lib.rs lines 13-36), kept branch-for-branch faithful.  The first
branch of the source is `if let Some(path) = Some(&self.get_local_bin_path(worktree))`:
the scrutinee is a literal `Some(..)`, so after `get_local_bin_path`
returns (it may panic first), the `Some` pattern necessarily matches
and the function returns that path.  The cache check and the
`copy_bin` call below it are reproduced as written, in the arm of a
`match some localBin with | none => ..` that can never be taken. -/
def languageServerBinaryPath (w : World) (cache : Option String) : RunResult :=
  match getLocalBinPath w.shellEnv with
  | .panicked m => { outcome := .panicked m, cache := cache, copied := none }
  | .ok localBin =>
    match some localBin with
    | some path => { outcome := .ok path, cache := cache, copied := none }
    | none =>
      match cache with
      | some path =>
        if w.isFile path then
          { outcome := .ok path, cache := cache, copied := none }
        else
          let r := copyBin w
          match r.outcome with
          | .ok p => { outcome := .ok p, cache := some p, copied := r.copied }
          | o => { outcome := o, cache := cache, copied := r.copied }
      | none =>
        let r := copyBin w
        match r.outcome with
        | .ok p => { outcome := .ok p, cache := some p, copied := r.copied }
        | o => { outcome := o, cache := cache, copied := r.copied }

/-- Iterate `language_server_binary_path` over a sequence of worlds,
threading the `cached_binary_path` field, as repeated calls on one
extension instance would. -/
def runCalls (ws : List World) (cache : Option String) : Option String :=
  ws.foldl (fun acc w => (languageServerBinaryPath w acc).cache) cache

end Lib

/-! ### Concrete worlds used to instantiate the theorems -/

/-- A Linux/x86_64 release of version 1.0.0 carrying the matching
asset. -/
def relLinux : DTLS.Release :=
  { version := "1.0.0"
    assets := [{ name := "design-tokens-language-server-x86_64-unknown-linux-gnu"
                 download_url := "https://example.invalid/dtls-linux" }] }

/-- The path the download branch produces for `relLinux` on
Linux/x86_64. -/
def binPath10 : String :=
  "design-tokens-language-server-1.0.0/design-tokens-language-server-x86_64-unknown-linux-gnu"

/-- A dtls.rs world on Linux/x86_64 where nothing is installed yet, the
release feed answers with `relLinux`, every operation succeeds, and the
working directory holds the fresh version directory plus a stale
0.9.0 one. -/
def wBase : Dtls.World :=
  { whichResult := none
    platform := .linux
    arch := .x8664
    releaseResult := .ok relLinux
    isFile := fun _ => false
    mkdirOk := true
    mkdirErr := ""
    downloadOk := true
    downloadErr := ""
    chmodOk := true
    chmodErr := ""
    readDirResult := .ok [.ok "design-tokens-language-server-1.0.0",
                          .ok "design-tokens-language-server-0.9.0"]
    removeOk := fun _ => true }

/-- World `wBase` with the tool present on the search path. -/
def wWhich : Dtls.World :=
  { wBase with whichResult := some "/usr/bin/design-tokens-language-server" }

/-- World `wBase` with a release that has no assets at all. -/
def wNoAsset : Dtls.World :=
  { wBase with releaseResult := .ok { version := "1.0.0", assets := [] } }

/-- World `wBase` after the 1.0.0 install: the installed binary now exists as
a file (the state a second call observes). -/
def wInstalled : Dtls.World :=
  { wBase with isFile := fun p => p == binPath10 }

/-- World `wBase` where listing the working directory fails. -/
def wReadDirErr : Dtls.World :=
  { wBase with readDirResult := .error "permission denied" }

/-- World `wBase` where the directory listing yields one good entry and then
a failing entry. -/
def wEntryErr : Dtls.World :=
  { wBase with readDirResult := .ok [.ok "stale-dir", .error "bad entry"] }

/-- A lib.rs world with `HOME` set and an empty filesystem: no file
exists anywhere and every copy fails. -/
def lwNoFile : Lib.World :=
  { shellEnv := [("HOME", "/home/user")]
    rootPath := "/proj"
    isFile := fun _ => false
    copySucceeds := fun _ _ => false
    copyErr := fun _ _ => "No such file or directory (os error 2)" }

/-- A lib.rs world for the copy-direction analysis: `HOME` is set, the
tool IS present at `<root>/node_modules/.bin/design-tokens-language-server`,
nothing exists in the state directory, and `fs::copy` succeeds exactly
when its SOURCE argument is an existing file. -/
def lwProjectTool : Lib.World :=
  { shellEnv := [("HOME", "/home/user")]
    rootPath := "/proj"
    isFile := fun p => p == "/proj/node_modules/.bin/design-tokens-language-server"
    copySucceeds := fun src _ => src == "/proj/node_modules/.bin/design-tokens-language-server"
    copyErr := fun _ _ => "No such file or directory (os error 2)" }

/-- A lib.rs world with an empty shell environment (no `HOME`). -/
def lwNoHome : Lib.World :=
  { shellEnv := []
    rootPath := "/proj"
    isFile := fun _ => false
    copySucceeds := fun _ _ => false
    copyErr := fun _ _ => "" }

/-! ### Helper lemmas -/

/-- A search-path hit short-circuits the whole resolver. -/
theorem Dtls.lsb_which_eq (w : Dtls.World) (c : Option String) (p : String)
    (h : w.whichResult = some p) :
    Dtls.languageServerBinary w c = ⟨.ok p, c, {}⟩ := by
  simp [Dtls.languageServerBinary, h]

/-- A cache hit (cache set, file still present, no search-path hit)
returns the cached path with no effects. -/
theorem Dtls.lsb_cache_eq (w : Dtls.World) (p : String)
    (h : w.whichResult = none) (hf : w.isFile p = true) :
    Dtls.languageServerBinary w (some p) = ⟨.ok p, some p, {}⟩ := by
  simp [Dtls.languageServerBinary, Dtls.cacheHit, h, hf]

/-- When both the search path and the cache miss, the resolver runs
`acquire` and installs the cache exactly on success. -/
theorem Dtls.lsb_acquire_eq (w : Dtls.World) (c : Option String)
    (h : w.whichResult = none) (hc : Dtls.cacheHit w c = none) :
    Dtls.languageServerBinary w c =
      ⟨(Dtls.acquire w).1,
       match (Dtls.acquire w).1 with
       | .ok p => some p
       | _ => c,
       (Dtls.acquire w).2⟩ := by
  simp [Dtls.languageServerBinary, h, hc]

/-- A cache hit means the cache held exactly that path and the file
exists. -/
theorem Dtls.cacheHit_some (w : Dtls.World) (c : Option String) (p : String)
    (h : Dtls.cacheHit w c = some p) :
    c = some p ∧ w.isFile p = true := by
  cases c with
  | none => simp [Dtls.cacheHit] at h
  | some q =>
    by_cases hf : w.isFile q
    · simp [Dtls.cacheHit, hf] at h
      exact ⟨by rw [h], h ▸ hf⟩
    · simp [Dtls.cacheHit, hf] at h

/-- With an error-free directory listing the cleanup loop reports no
error. -/
theorem Dtls.cleanupLoop_all_ok_snd (vd : String) (rok : String → Bool)
    (names : List String) :
    (Dtls.cleanupLoop vd rok (names.map Except.ok)).2 = none := by
  induction names with
  | nil => rfl
  | cons n rest ih => simpa [Dtls.cleanupLoop] using ih

/-- Every readable entry that differs from the version directory and
whose removal succeeds ends up removed. -/
theorem Dtls.cleanupLoop_mem (vd : String) (rok : String → Bool)
    (names : List String) (d : String)
    (hd : d ∈ names) (hne : d ≠ vd) (hr : rok d = true) :
    d ∈ (Dtls.cleanupLoop vd rok (names.map Except.ok)).1 := by
  induction names with
  | nil => cases hd
  | cons n rest ih =>
    simp only [List.map_cons, Dtls.cleanupLoop, List.mem_append]
    rcases List.mem_cons.mp hd with h | h
    · subst h
      left
      simp [hne, hr]
    · right
      exact ih h

/-- The version directory itself is never removed by the cleanup
loop. -/
theorem Dtls.cleanupLoop_not_self (vd : String) (rok : String → Bool)
    (entries : List (Except String String)) :
    vd ∉ (Dtls.cleanupLoop vd rok entries).1 := by
  induction entries with
  | nil => simp [Dtls.cleanupLoop]
  | cons e rest ih =>
    cases e with
    | error msg => simp [Dtls.cleanupLoop]
    | ok n =>
      simp only [Dtls.cleanupLoop, List.mem_append]
      rintro (h | h)
      · by_cases hn : n ≠ vd ∧ rok n
        · simp [hn] at h
          exact hn.1 h.symm
        · simp [hn] at h
      · exact ih h

/-- With `HOME` present, the lib.rs resolver always takes its first
branch: it returns the state-directory path computed by
`get_local_bin_path`, leaves the cache untouched, and copies
nothing. -/
theorem Lib.lsbp_home_eq (w : Lib.World) (c : Option String) (home : String)
    (hH : Lib.envGet w.shellEnv "HOME" = some home) :
    ∃ p, Lib.getLocalBinPath w.shellEnv = .ok p ∧
      Lib.languageServerBinaryPath w c = ⟨.ok p, c, none⟩ := by
  simp only [Lib.languageServerBinaryPath, Lib.getLocalBinPath, hH]
  exact ⟨_, rfl, rfl⟩

/-! ### Claim theorems -/

/-- C3: for every (OS, architecture) pair in
{Windows, macOS, Linux} x {arm64/aarch64, x64/x86_64} the computed asset
filename equals the corresponding entry of the spec's section-6 table,
and for 32-bit x86 on any OS the computation fails (the source arm is
`todo!()`) instead of producing a filename. -/
theorem C3_asset_name_table :
    Dtls.assetName .windows .aarch64 = some "design-tokens-language-server-win-arm64.exe" ∧
    Dtls.assetName .windows .x8664 = some "design-tokens-language-server-win-x64.exe" ∧
    Dtls.assetName .mac .aarch64 = some "design-tokens-language-server-aarch64-apple-darwin" ∧
    Dtls.assetName .mac .x8664 = some "design-tokens-language-server-x86_64-apple-darwin" ∧
    Dtls.assetName .linux .aarch64 = some "design-tokens-language-server-aarch64-unknown-linux-gnu" ∧
    Dtls.assetName .linux .x8664 = some "design-tokens-language-server-x86_64-unknown-linux-gnu" ∧
    Dtls.assetName .windows .x86 = none ∧
    Dtls.assetName .mac .x86 = none ∧
    Dtls.assetName .linux .x86 = none := by
  refine ⟨?_, ?_, ?_, ?_, ?_, ?_, ?_, ?_, ?_⟩ <;> rfl

/-- C4: whenever the worktree's search path yields the executable, the
resolver returns that path with NO effects at all: no status callbacks,
no release-feed query, no directory creation, no download, no chmod, no
removals — and the cache is untouched. -/
theorem C4_search_path_priority (w : Dtls.World) (c : Option String) (p : String)
    (h : w.whichResult = some p) :
    (Dtls.languageServerBinary w c).outcome = .ok p ∧
    (Dtls.languageServerBinary w c).effects = {} ∧
    (Dtls.languageServerBinary w c).cache = c := by
  rw [Dtls.lsb_which_eq w c p h]
  exact ⟨rfl, rfl, rfl⟩

/-- Witness for C4 at a concrete world with a search-path hit. -/
theorem C4_search_path_priority_witness :
    (Dtls.languageServerBinary wWhich none).outcome =
      .ok "/usr/bin/design-tokens-language-server" ∧
    (Dtls.languageServerBinary wWhich none).effects = {} ∧
    (Dtls.languageServerBinary wWhich none).cache = none :=
  C4_search_path_priority wWhich none "/usr/bin/design-tokens-language-server" rfl

/-- C5: if the remote-acquisition path is reached (no search-path hit,
no cache hit), the release is fetched and its asset list has no asset
named like the computed filename, then resolution fails with the
"no asset found matching" error naming the expected filename, performs
no download (not even the Downloading status callback), and leaves the
cache unchanged. -/
theorem C5_asset_not_found (w : Dtls.World) (c : Option String)
    (rel : DTLS.Release) (nm : String)
    (hw : w.whichResult = none)
    (hc : Dtls.cacheHit w c = none)
    (hr : w.releaseResult = .ok rel)
    (hn : Dtls.assetName w.platform w.arch = some nm)
    (ha : rel.assets.find? (fun a => a.name == nm) = none) :
    (Dtls.languageServerBinary w c).outcome =
      .err ("no asset found matching \"" ++ nm ++ "\"") ∧
    (Dtls.languageServerBinary w c).effects.downloadedFrom = none ∧
    (Dtls.languageServerBinary w c).effects.statusDownloading = false ∧
    (Dtls.languageServerBinary w c).cache = c := by
  rw [Dtls.lsb_acquire_eq w c hw hc]
  simp [Dtls.acquire, hr, hn, ha]

/-- Witness for C5 at a concrete release with an empty asset list. -/
theorem C5_asset_not_found_witness :
    (Dtls.languageServerBinary wNoAsset none).outcome =
      .err "no asset found matching \"design-tokens-language-server-x86_64-unknown-linux-gnu\"" ∧
    (Dtls.languageServerBinary wNoAsset none).effects.downloadedFrom = none ∧
    (Dtls.languageServerBinary wNoAsset none).effects.statusDownloading = false ∧
    (Dtls.languageServerBinary wNoAsset none).cache = none :=
  C5_asset_not_found wNoAsset none { version := "1.0.0", assets := [] }
    "design-tokens-language-server-x86_64-unknown-linux-gnu" rfl rfl rfl rfl rfl

/-- C8: when the worktree's shell environment has no `HOME` binding,
the lib.rs resolver deterministically aborts — `get_local_bin_path`
panics with the descriptive message "No HOME env var" before any path
is produced — so no (in particular no empty or meaningless) path is
ever returned and nothing is copied or cached. -/
theorem C8_missing_home_aborts (w : Lib.World) (c : Option String)
    (hH : Lib.envGet w.shellEnv "HOME" = none) :
    Lib.languageServerBinaryPath w c = ⟨.panicked "No HOME env var", c, none⟩ ∧
    ∀ p, (Lib.languageServerBinaryPath w c).outcome ≠ .ok p := by
  have he : Lib.languageServerBinaryPath w c = ⟨.panicked "No HOME env var", c, none⟩ := by
    simp [Lib.languageServerBinaryPath, Lib.getLocalBinPath, hH]
  refine ⟨he, fun p hp => ?_⟩
  rw [he] at hp
  exact DTLS.ROutcome.noConfusion hp

/-- Witness for C8 at a world with an empty shell environment. -/
theorem C8_missing_home_aborts_witness :
    Lib.languageServerBinaryPath lwNoHome none =
      ⟨.panicked "No HOME env var", none, none⟩ ∧
    ∀ p, (Lib.languageServerBinaryPath lwNoHome none).outcome ≠ .ok p :=
  C8_missing_home_aborts lwNoHome none rfl

/-- C2 (code bug): in the world `lwProjectTool` the tool IS present at
`<worktree-root>/node_modules/.bin/design-tokens-language-server` and
`fs::copy` succeeds exactly when its source exists.  The claim (and
spec) says `copy_bin` copies the project-local file into the state
directory and returns the state-directory path; the code instead calls
`fs::copy(&local_bin_path, binary_path)` — source = state-directory
path, destination = node_modules path — so here it attempts the copy in
the reverse direction and fails with the io error, even though the
project-local tool exists.  (On a world where that reversed copy
succeeds, `copy_bin` returns the node_modules path, not the
state-directory path.) -/
theorem C2_copy_direction_bug :
    lwProjectTool.isFile "/proj/node_modules/.bin/design-tokens-language-server" = true ∧
    Lib.copyBin lwProjectTool =
      { outcome := .err "No such file or directory (os error 2)"
        copied := some ("/home/user/.local/bin/design-tokens-language-server",
                        "/proj/node_modules/.bin/design-tokens-language-server") } :=
  ⟨rfl, rfl⟩

/-- C1 (counterexample): in the lib.rs revision with `HOME` set and an
empty filesystem, resolution succeeds with the state-directory path
even though no file exists there (`isFile` is everywhere false) and no
acquisition was performed (`copied = none`), refuting "the returned
executable path refers to a file that exists and is executable at the
moment of return". -/
theorem C1_counterexample :
    (Lib.languageServerBinaryPath lwNoFile none).outcome =
      .ok "/home/user/.local/bin/design-tokens-language-server" ∧
    lwNoFile.isFile "/home/user/.local/bin/design-tokens-language-server" = false ∧
    (Lib.languageServerBinaryPath lwNoFile none).copied = none :=
  ⟨rfl, rfl, rfl⟩

/-- Case analysis for a successful `acquire`: the returned path either
already existed as a regular file (the download was skipped), or it was
downloaded and made executable during this call. -/
theorem Dtls.acquire_ok_cases (w : Dtls.World) (p : String)
    (h : (Dtls.acquire w).1 = .ok p) :
    w.isFile p = true ∨
    ((Dtls.acquire w).2.downloadedFrom ≠ none ∧
     (Dtls.acquire w).2.madeExecutable = true) := by
  cases hr : w.releaseResult with
  | error e => simp [Dtls.acquire, hr] at h
  | ok release =>
    cases hn : Dtls.assetName w.platform w.arch with
    | none => simp [Dtls.acquire, hr, hn] at h
    | some nm =>
      cases ha : release.assets.find? (fun a => a.name == nm) with
      | none => simp [Dtls.acquire, hr, hn, ha] at h
      | some asset =>
        by_cases hm : w.mkdirOk
        · by_cases hf : w.isFile ("design-tokens-language-server-" ++ release.version ++ "/" ++ nm)
          · left
            simp [Dtls.acquire, hr, hn, ha, hm, hf] at h
            exact h ▸ hf
          · by_cases hd : w.downloadOk
            · by_cases hx : w.chmodOk
              · cases he : w.readDirResult with
                | error e => simp [Dtls.acquire, hr, hn, ha, hm, hf, hd, hx, he] at h
                | ok entries =>
                  right
                  constructor
                  · simp [Dtls.acquire, hr, hn, ha, hm, hf, hd, hx, he]
                    cases hs : (Dtls.cleanupLoop ("design-tokens-language-server-" ++ release.version) w.removeOk entries).2 <;> simp [hs]
                  · simp [Dtls.acquire, hr, hn, ha, hm, hf, hd, hx, he]
                    cases hs : (Dtls.cleanupLoop ("design-tokens-language-server-" ++ release.version) w.removeOk entries).2 <;> simp [hs]
              · simp [Dtls.acquire, hr, hn, ha, hm, hf, hd, hx] at h
            · simp [Dtls.acquire, hr, hn, ha, hm, hf, hd] at h
        · simp [Dtls.acquire, hr, hn, ha, hm] at h

/-- C1 (amended): in the dtls.rs revision, whenever resolution returns
`Ok(p)`, either `p` came straight from the search-path lookup, or `p`
was verified to be an existing regular file (cache hit, or an already
present install), or `p` was downloaded and marked executable during
this very call.  (The lib.rs revision violates the original claim: see
the counterexample, where the returned state-directory path is never
verified.) -/
theorem C1_success_verified_or_fresh (w : Dtls.World) (c : Option String) (p : String)
    (h : (Dtls.languageServerBinary w c).outcome = .ok p) :
    w.whichResult = some p ∨ w.isFile p = true ∨
    ((Dtls.languageServerBinary w c).effects.downloadedFrom ≠ none ∧
     (Dtls.languageServerBinary w c).effects.madeExecutable = true) := by
  cases hq : w.whichResult with
  | some q =>
    rw [Dtls.lsb_which_eq w c q hq] at h ⊢
    have hqp : q = p := by
      have h2 : DTLS.ROutcome.ok q = DTLS.ROutcome.ok p := h
      injection h2
    subst hqp
    exact Or.inl rfl
  | none =>
    cases hch : Dtls.cacheHit w c with
    | some q =>
      obtain ⟨hc0, hfile⟩ := Dtls.cacheHit_some w c q hch
      subst hc0
      rw [Dtls.lsb_cache_eq w q hq hfile] at h ⊢
      have hqp : q = p := by
        have h2 : DTLS.ROutcome.ok q = DTLS.ROutcome.ok p := h
        injection h2
      subst hqp
      exact Or.inr (Or.inl hfile)
    | none =>
      rw [Dtls.lsb_acquire_eq w c hq hch] at h ⊢
      have h2 : (Dtls.acquire w).1 = .ok p := h
      rcases Dtls.acquire_ok_cases w p h2 with hfile | hfresh
      · exact Or.inr (Or.inl hfile)
      · exact Or.inr (Or.inr hfresh)

/-- Witness for the amended C1 at a concrete search-path hit. -/
theorem C1_success_verified_or_fresh_witness :
    wWhich.whichResult = some "/usr/bin/design-tokens-language-server" ∨
    wWhich.isFile "/usr/bin/design-tokens-language-server" = true ∨
    ((Dtls.languageServerBinary wWhich none).effects.downloadedFrom ≠ none ∧
     (Dtls.languageServerBinary wWhich none).effects.madeExecutable = true) :=
  C1_success_verified_or_fresh wWhich none "/usr/bin/design-tokens-language-server" rfl

/-- C6: when the download branch runs to completion for version
`rel.version` (no search-path or cache hit, matching asset found,
directory created, binary absent, download and chmod succeed, the
directory listing is error-free), resolution succeeds with the binary
inside the version directory, every listed sibling that is not the
version directory and whose best-effort removal succeeds is removed,
the version directory itself is never removed, and the new binary path
is cached. -/
theorem C6_stale_version_cleanup (w : Dtls.World) (c : Option String)
    (rel : DTLS.Release) (nm : String) (asset : DTLS.Asset) (names : List String)
    (hw : w.whichResult = none)
    (hc : Dtls.cacheHit w c = none)
    (hr : w.releaseResult = .ok rel)
    (hn : Dtls.assetName w.platform w.arch = some nm)
    (ha : rel.assets.find? (fun a => a.name == nm) = some asset)
    (hm : w.mkdirOk = true)
    (hf : w.isFile ("design-tokens-language-server-" ++ rel.version ++ "/" ++ nm) = false)
    (hd : w.downloadOk = true)
    (hx : w.chmodOk = true)
    (he : w.readDirResult = .ok (names.map Except.ok)) :
    (Dtls.languageServerBinary w c).outcome =
      .ok ("design-tokens-language-server-" ++ rel.version ++ "/" ++ nm) ∧
    (Dtls.languageServerBinary w c).effects.downloadedFrom = some asset.download_url ∧
    (∀ d ∈ names, d ≠ "design-tokens-language-server-" ++ rel.version →
      w.removeOk d = true →
      d ∈ (Dtls.languageServerBinary w c).effects.removedDirs) ∧
    ("design-tokens-language-server-" ++ rel.version) ∉
      (Dtls.languageServerBinary w c).effects.removedDirs ∧
    (Dtls.languageServerBinary w c).cache =
      some ("design-tokens-language-server-" ++ rel.version ++ "/" ++ nm) := by
  have hsnd := Dtls.cleanupLoop_all_ok_snd
    ("design-tokens-language-server-" ++ rel.version) w.removeOk names
  have h1 : (Dtls.languageServerBinary w c).outcome =
      .ok ("design-tokens-language-server-" ++ rel.version ++ "/" ++ nm) := by
    rw [Dtls.lsb_acquire_eq w c hw hc]
    simp [Dtls.acquire, hr, hn, ha, hm, hf, hd, hx, he, hsnd]
  have h2 : (Dtls.languageServerBinary w c).effects.downloadedFrom =
      some asset.download_url := by
    rw [Dtls.lsb_acquire_eq w c hw hc]
    simp [Dtls.acquire, hr, hn, ha, hm, hf, hd, hx, he, hsnd]
  have hrem : (Dtls.languageServerBinary w c).effects.removedDirs =
      (Dtls.cleanupLoop ("design-tokens-language-server-" ++ rel.version)
        w.removeOk (names.map Except.ok)).1 := by
    rw [Dtls.lsb_acquire_eq w c hw hc]
    simp [Dtls.acquire, hr, hn, ha, hm, hf, hd, hx, he, hsnd]
  have h5 : (Dtls.languageServerBinary w c).cache =
      some ("design-tokens-language-server-" ++ rel.version ++ "/" ++ nm) := by
    rw [Dtls.lsb_acquire_eq w c hw hc]
    simp [Dtls.acquire, hr, hn, ha, hm, hf, hd, hx, he, hsnd]
  refine ⟨h1, h2, ?_, ?_, h5⟩
  · intro d hd2 hne hrk
    rw [hrem]
    exact Dtls.cleanupLoop_mem _ w.removeOk names d hd2 hne hrk
  · rw [hrem]
    exact Dtls.cleanupLoop_not_self _ w.removeOk (names.map Except.ok)

/-- Witness for C6 at `wBase`: the 0.9.0 sibling is removed, the 1.0.0
version directory (and the binary inside it, which is the returned and
cached path) remains. -/
theorem C6_stale_version_cleanup_witness :
    (Dtls.languageServerBinary wBase none).outcome = .ok binPath10 ∧
    "design-tokens-language-server-0.9.0" ∈
      (Dtls.languageServerBinary wBase none).effects.removedDirs ∧
    "design-tokens-language-server-1.0.0" ∉
      (Dtls.languageServerBinary wBase none).effects.removedDirs ∧
    (Dtls.languageServerBinary wBase none).effects.downloadedFrom =
      some "https://example.invalid/dtls-linux" ∧
    (Dtls.languageServerBinary wBase none).cache = some binPath10 := by
  have h := C6_stale_version_cleanup wBase none relLinux
    "design-tokens-language-server-x86_64-unknown-linux-gnu"
    { name := "design-tokens-language-server-x86_64-unknown-linux-gnu"
      download_url := "https://example.invalid/dtls-linux" }
    ["design-tokens-language-server-1.0.0", "design-tokens-language-server-0.9.0"]
    rfl rfl rfl rfl rfl rfl rfl rfl rfl rfl
  exact ⟨h.1, h.2.2.1 "design-tokens-language-server-0.9.0" (by simp) (by decide) rfl,
    h.2.2.2.1, h.2.1, h.2.2.2.2⟩

/-- C10: if the directory listing fails (either `fs::read_dir` itself
or a directory entry) AFTER the binary was downloaded and marked
executable, the call returns an error and `cached_binary_path` is left
unchanged — the freshly installed binary's path is neither cached nor
returned even though the installation succeeded. -/
theorem C10_cleanup_failure_after_install (w : Dtls.World) (c : Option String)
    (rel : DTLS.Release) (nm : String) (asset : DTLS.Asset) (msg : String)
    (hw : w.whichResult = none)
    (hc : Dtls.cacheHit w c = none)
    (hr : w.releaseResult = .ok rel)
    (hn : Dtls.assetName w.platform w.arch = some nm)
    (ha : rel.assets.find? (fun a => a.name == nm) = some asset)
    (hm : w.mkdirOk = true)
    (hf : w.isFile ("design-tokens-language-server-" ++ rel.version ++ "/" ++ nm) = false)
    (hd : w.downloadOk = true)
    (hx : w.chmodOk = true)
    (hfail : w.readDirResult = .error msg ∨
      ∃ entries, w.readDirResult = .ok entries ∧
        (Dtls.cleanupLoop ("design-tokens-language-server-" ++ rel.version)
          w.removeOk entries).2 = some msg) :
    ((Dtls.languageServerBinary w c).outcome =
        .err ("failed to list working directory " ++ msg) ∨
      (Dtls.languageServerBinary w c).outcome = .err msg) ∧
    (Dtls.languageServerBinary w c).effects.downloadedFrom = some asset.download_url ∧
    (Dtls.languageServerBinary w c).effects.madeExecutable = true ∧
    (Dtls.languageServerBinary w c).cache = c := by
  rw [Dtls.lsb_acquire_eq w c hw hc]
  rcases hfail with hE | ⟨entries, hok, hsnd⟩
  · refine ⟨Or.inl ?_, ?_, ?_, ?_⟩ <;>
      simp [Dtls.acquire, hr, hn, ha, hm, hf, hd, hx, hE]
  · refine ⟨Or.inr ?_, ?_, ?_, ?_⟩ <;>
      simp [Dtls.acquire, hr, hn, ha, hm, hf, hd, hx, hok, hsnd]

/-- Witness for C10 at `wReadDirErr`, where listing the working
directory fails with "permission denied" after a successful download
and chmod. -/
theorem C10_cleanup_failure_after_install_witness :
    ((Dtls.languageServerBinary wReadDirErr none).outcome =
        .err "failed to list working directory permission denied" ∨
      (Dtls.languageServerBinary wReadDirErr none).outcome = .err "permission denied") ∧
    (Dtls.languageServerBinary wReadDirErr none).effects.downloadedFrom =
      some "https://example.invalid/dtls-linux" ∧
    (Dtls.languageServerBinary wReadDirErr none).effects.madeExecutable = true ∧
    (Dtls.languageServerBinary wReadDirErr none).cache = none :=
  C10_cleanup_failure_after_install wReadDirErr none relLinux
    "design-tokens-language-server-x86_64-unknown-linux-gnu"
    { name := "design-tokens-language-server-x86_64-unknown-linux-gnu"
      download_url := "https://example.invalid/dtls-linux" }
    "permission denied" rfl rfl rfl rfl rfl rfl rfl rfl rfl (Or.inl rfl)

/-- C7: (first part) after a successful resolution, a second call on
the same extension state — with an unchanged search-path result and the
resolved file still existing — returns the identical path with no
effects at all (in particular no release query and no download);
(second part) a cached path whose file no longer exists is ignored:
resolution produces the same outcome and the same effects as if no
cache were set, i.e. it falls through to the next strategy. -/
theorem C7_cache_reuse_and_invalidation :
    (∀ (w1 w2 : Dtls.World) (c : Option String) (p : String),
      (Dtls.languageServerBinary w1 c).outcome = .ok p →
      w2.whichResult = w1.whichResult →
      w2.isFile p = true →
      (Dtls.languageServerBinary w2 (Dtls.languageServerBinary w1 c).cache).outcome =
        .ok p ∧
      (Dtls.languageServerBinary w2 (Dtls.languageServerBinary w1 c).cache).effects =
        {}) ∧
    (∀ (w : Dtls.World) (q : String),
      w.isFile q = false →
      (Dtls.languageServerBinary w (some q)).outcome =
        (Dtls.languageServerBinary w none).outcome ∧
      (Dtls.languageServerBinary w (some q)).effects =
        (Dtls.languageServerBinary w none).effects) := by
  constructor
  · intro w1 w2 c p h1 hww hf
    cases hq : w1.whichResult with
    | some q =>
      rw [Dtls.lsb_which_eq w1 c q hq] at h1 ⊢
      have hqp : q = p := by
        have h2 : DTLS.ROutcome.ok q = DTLS.ROutcome.ok p := h1
        injection h2
      subst hqp
      have h2 : w2.whichResult = some q := by rw [hww, hq]
      rw [Dtls.lsb_which_eq w2 _ q h2]
      exact ⟨rfl, rfl⟩
    | none =>
      have hw2 : w2.whichResult = none := by rw [hww, hq]
      cases hch : Dtls.cacheHit w1 c with
      | some q =>
        obtain ⟨hc0, hfile⟩ := Dtls.cacheHit_some w1 c q hch
        subst hc0
        rw [Dtls.lsb_cache_eq w1 q hq hfile] at h1 ⊢
        have hqp : q = p := by
          have h2 : DTLS.ROutcome.ok q = DTLS.ROutcome.ok p := h1
          injection h2
        subst hqp
        rw [show (⟨.ok q, some q, {}⟩ : Dtls.RunResult).cache = some q from rfl]
        rw [Dtls.lsb_cache_eq w2 q hw2 hf]
        exact ⟨rfl, rfl⟩
      | none =>
        rw [Dtls.lsb_acquire_eq w1 c hq hch] at h1 ⊢
        have h2 : (Dtls.acquire w1).1 = .ok p := h1
        simp only [h2]
        rw [Dtls.lsb_cache_eq w2 p hw2 hf]
        exact ⟨rfl, rfl⟩
  · intro w q hf
    cases hw : w.whichResult with
    | some p =>
      rw [Dtls.lsb_which_eq w (some q) p hw, Dtls.lsb_which_eq w none p hw]
      exact ⟨rfl, rfl⟩
    | none =>
      have hch : Dtls.cacheHit w (some q) = none := by
        simp [Dtls.cacheHit, hf]
      have hch2 : Dtls.cacheHit w none = none := rfl
      rw [Dtls.lsb_acquire_eq w (some q) hw hch,
        Dtls.lsb_acquire_eq w none hw hch2]
      exact ⟨rfl, rfl⟩

/-- Witness for C7: a first call on `wBase` downloads and returns the
1.0.0 binary; the second call, on `wInstalled` (same search path, the
installed file now present), returns the cached identical path with no
effects.  And on `wBase` a stale cached path ("stale" is not a file)
changes neither the outcome nor the effects relative to an empty
cache. -/
theorem C7_cache_reuse_and_invalidation_witness :
    ((Dtls.languageServerBinary wInstalled
        (Dtls.languageServerBinary wBase none).cache).outcome = .ok binPath10 ∧
     (Dtls.languageServerBinary wInstalled
        (Dtls.languageServerBinary wBase none).cache).effects = {}) ∧
    ((Dtls.languageServerBinary wBase (some "stale")).outcome =
        (Dtls.languageServerBinary wBase none).outcome ∧
     (Dtls.languageServerBinary wBase (some "stale")).effects =
        (Dtls.languageServerBinary wBase none).effects) :=
  ⟨C7_cache_reuse_and_invalidation.1 wBase wInstalled none binPath10 rfl rfl rfl,
   C7_cache_reuse_and_invalidation.2 wBase "stale" rfl⟩

/-- C9: in the lib.rs revision, whenever the shell environment binds
`HOME`, the first branch (`if let Some(path) = Some(&self.get_local_bin_path(worktree))`)
necessarily matches: the call returns `Ok` with exactly the
state-directory path computed by `get_local_bin_path`
(`${XDG_STATE_HOME:-$HOME/.local}/bin/design-tokens-language-server`)
for ANY filesystem (no existence check), performs no copy, and leaves
`cached_binary_path` untouched — hence over every sequence of calls
whose environments bind `HOME`, the cache stays `None`. -/
theorem C9_lib_first_branch_dominates :
    (∀ (w : Lib.World) (c : Option String) (home : String),
      Lib.envGet w.shellEnv "HOME" = some home →
      ∃ p, Lib.getLocalBinPath w.shellEnv = .ok p ∧
        Lib.languageServerBinaryPath w c = ⟨.ok p, c, none⟩) ∧
    (∀ ws : List Lib.World,
      (∀ w ∈ ws, ∃ home, Lib.envGet w.shellEnv "HOME" = some home) →
      Lib.runCalls ws none = none) := by
  refine ⟨fun w c home hH => Lib.lsbp_home_eq w c home hH, ?_⟩
  intro ws
  induction ws with
  | nil => intro _; rfl
  | cons w rest ih =>
    intro hws
    obtain ⟨home, hH⟩ := hws w (List.mem_cons_self w rest)
    obtain ⟨p, _, he⟩ := Lib.lsbp_home_eq w none home hH
    show List.foldl _ ((Lib.languageServerBinaryPath w none).cache) rest = none
    rw [he]
    exact ih (fun w2 hw2 => hws w2 (List.mem_cons_of_mem w hw2))

/-- Witness for C9 at `lwNoFile` (`HOME=/home/user`, empty filesystem):
one call returns the state-directory path with the cache untouched, and
two successive calls leave the cache `None`. -/
theorem C9_lib_first_branch_dominates_witness :
    Lib.languageServerBinaryPath lwNoFile none =
      ⟨.ok "/home/user/.local/bin/design-tokens-language-server", none, none⟩ ∧
    Lib.runCalls [lwNoFile, lwNoFile] none = none := by
  constructor
  · obtain ⟨p, hp, he⟩ :=
      C9_lib_first_branch_dominates.1 lwNoFile none "/home/user" rfl
    have h2 : Lib.POutcome.ok p =
        Lib.POutcome.ok "/home/user/.local/bin/design-tokens-language-server" :=
      hp.symm.trans rfl
    injection h2 with h3
    rw [h3] at he
    exact he
  · refine C9_lib_first_branch_dominates.2 [lwNoFile, lwNoFile] ?_
    intro w hw
    have hw2 : w = lwNoFile := by
      rcases List.mem_cons.mp hw with h | h
      · exact h
      · rcases List.mem_cons.mp h with h2 | h2
        · exact h2
        · exact absurd h2 (List.not_mem_nil w)
    subst hw2
    exact ⟨"/home/user", rfl⟩
